import Mathlib

/-!
# Verification of the TikTok OAuth2 backend (index.js)

Shallow embedding of the Express server in `index.js` (file-upload variant)
and of the pull-from-URL variant embedded alongside it.  Handlers are
modelled as pure functions from the request, the stored state and the
outcomes of the outbound platform calls to the HTTP response and the
resulting state; JavaScript numbers holding epoch-millisecond timestamps
are modelled as `Nat` with comparisons carried out in `Int` (no overflow
occurs at these magnitudes, and JS arithmetic does not truncate).
-/

namespace TikTokOAuth

/-- The only persisted entity: access/refresh token pair with an absolute
expiry timestamp in epoch milliseconds (index.js lines 142-146). -/
structure TokenRecord where
  access_token : String
  refresh_token : String
  expires_at : Nat
deriving Repr, DecidableEq

/-- Errors thrown by `getValidAccessToken` (index.js lines 181, 228):
either no tokens are stored yet, or the refresh attempt failed. -/
inductive AuthError where
  | noTokens (msg : String)
  | refreshFailed (msg : String)
deriving Repr, DecidableEq

/-- The message of the error thrown when no tokens are stored
(index.js line 181). -/
def noTokensMessage (port : String) : String :=
  "No tokens available. Please complete OAuth flow first. Visit http://localhost:" ++
    port ++ "/auth/login"

/-- The message of the error thrown when the refresh attempt fails
(index.js line 228). -/
def refreshFailedMessage (port : String) : String :=
  "Token refresh failed. Please re-authenticate at http://localhost:" ++
    port ++ "/auth/login"

/-- Outcome of the outbound POST to the platform token endpoint during a
refresh (index.js lines 200-213): the HTTP call can fail, or return a body
with an `error` field, or return fresh token data. -/
inductive RefreshOutcome where
  | httpFailure (msg : String)
  | errorBody (error error_description : String)
  | ok (access_token refresh_token : String) (expires_in : Nat)
deriving Repr, DecidableEq

/-- Result of `getValidAccessToken`: the returned token or thrown error,
whether the token endpoint was contacted, and the record written through
the token store (if any). -/
structure AuthResult where
  result : Except AuthError String
  tokenEndpointCalled : Bool
  saved : Option TokenRecord
deriving Repr

/-- `getValidAccessToken` (index.js lines 178-230).  `stored` is what
`tokenStorage.loadTokens()` returns, `now` is `Date.now()`, `refresh` the
outcome of the token-endpoint call should one be made.  The stored token
is reused iff `Date.now() < tokens.expires_at - 60 * 1000` (line 184);
otherwise a refresh-token grant is issued, and any failure (error body or
transport error) surfaces as the generic re-authenticate error thrown by
the catch block (line 228). -/
def getValidAccessToken (port : String) (stored : Option TokenRecord) (now : Nat)
    (refresh : RefreshOutcome) : AuthResult :=
  match stored with
  | none => ⟨.error (.noTokens (noTokensMessage port)), false, none⟩
  | some tokens =>
    if (now : Int) < (tokens.expires_at : Int) - 60 * 1000 then
      ⟨.ok tokens.access_token, false, none⟩
    else
      match refresh with
      | .ok a rt e =>
          ⟨.ok a, true, some ⟨a, rt, now + e * 1000⟩⟩
      | .errorBody _ _ =>
          ⟨.error (.refreshFailed (refreshFailedMessage port)), true, none⟩
      | .httpFailure _ =>
          ⟨.error (.refreshFailed (refreshFailedMessage port)), true, none⟩

/-- C1: for a persisted record, the stored access token is returned with no
token-endpoint contact exactly when now < expires_at - 60 s; the boundary
cases expires_at = now + 61 s (valid) and now + 59 s (refresh attempted)
follow. -/
theorem getValidAccessToken_expiry_boundary (port a rt : String) (e now : Nat)
    (refresh : RefreshOutcome) :
    (((getValidAccessToken port (some ⟨a, rt, e⟩) now refresh).result = .ok a ∧
      (getValidAccessToken port (some ⟨a, rt, e⟩) now refresh).tokenEndpointCalled = false)
      ↔ (now : Int) < (e : Int) - 60 * 1000)
    ∧ (getValidAccessToken port (some ⟨a, rt, now + 61 * 1000⟩) now refresh).result = .ok a
    ∧ (getValidAccessToken port (some ⟨a, rt, now + 61 * 1000⟩) now
        refresh).tokenEndpointCalled = false
    ∧ (getValidAccessToken port (some ⟨a, rt, now + 59 * 1000⟩) now
        refresh).tokenEndpointCalled = true := by
  refine ⟨?_, ?_, ?_, ?_⟩
  · constructor
    · intro ⟨h1, h2⟩
      simp only [getValidAccessToken] at h2
      split at h2
      · next h => omega
      · next h => cases refresh <;> simp at h2
    · intro hlt
      simp only [getValidAccessToken]
      split
      · exact ⟨rfl, rfl⟩
      · next h => exact (h (by omega)).elim
  · simp only [getValidAccessToken]
    split
    · rfl
    · next h => exact (h (by omega)).elim
  · simp only [getValidAccessToken]
    split
    · rfl
    · next h => exact (h (by omega)).elim
  · simp only [getValidAccessToken]
    split
    · next h => exact absurd h (by omega)
    · cases refresh <;> rfl

/-- Discriminates the "not yet authenticated" error from the refresh
failure. -/
def AuthError.isNoTokens : AuthError → Bool
  | .noTokens _ => true
  | .refreshFailed _ => false

/-- C6: with no stored record, `getValidAccessToken` fails with the
"not yet authenticated" error — a constructor distinct from the refresh
failure, as the `isNoTokens` discriminator shows — makes no token-endpoint
call, and the error message ends with the login endpoint path. -/
theorem getValidAccessToken_noTokens (port : String) (now : Nat)
    (refresh : RefreshOutcome) :
    (getValidAccessToken port none now refresh).result =
      .error (.noTokens (noTokensMessage port))
    ∧ (AuthError.noTokens (noTokensMessage port)).isNoTokens = true
    ∧ (∀ m, (AuthError.refreshFailed m).isNoTokens = false)
    ∧ (getValidAccessToken port none now refresh).tokenEndpointCalled = false
    ∧ "/auth/login".toList <:+ (noTokensMessage port).toList := by
  refine ⟨rfl, rfl, fun m => rfl, rfl, ?_⟩
  · show "/auth/login".data <:+ (noTokensMessage port).data
    have : (noTokensMessage port).data =
        ("No tokens available. Please complete OAuth flow first. Visit http://localhost:" ++
          port).data ++ "/auth/login".data := by
      simp [noTokensMessage, String.data_append]
    rw [this]
    exact List.suffix_append _ _

/-!
## Token Store (spec-modelled)

`index.js` line 6 requires `./tokenStorage` (class `SecureTokenStorage`,
used at lines 25-28, 142, 179, 218), but `tokenStorage.js` itself is not in
the repository snapshot; the component is modelled from the spec: a
canonical byte serialization of the record, authenticated symmetric
encryption under the configured key, and a single file slot holding the
ciphertext (absent on first run).
-/

/-- Modelled from the spec: the canonical byte form of a string — its
length followed by its character codes (`tokenStorage.js` is missing from
the snapshot; the spec only requires a canonical, parseable byte form). -/
def encodeStringBytes (s : String) : List Nat :=
  s.length :: s.toList.map Char.toNat

/-- Modelled from the spec: parse one length-prefixed string off the front
of a byte list, returning it and the remainder. -/
def decodeStringBytes : List Nat → Option (String × List Nat)
  | [] => none
  | n :: rest =>
    if n ≤ rest.length then
      some (String.mk ((rest.take n).map Char.ofNat), rest.drop n)
    else none

/-- Modelled from the spec: canonical byte serialization of a
`TokenRecord`. -/
def serializeRecord (r : TokenRecord) : List Nat :=
  encodeStringBytes r.access_token ++ encodeStringBytes r.refresh_token ++
    [r.expires_at]

/-- Modelled from the spec: parse a serialized `TokenRecord`; any leftover
or truncated input is a parse failure. -/
def deserializeRecord (bs : List Nat) : Option TokenRecord :=
  match decodeStringBytes bs with
  | none => none
  | some (a, rest) =>
    match decodeStringBytes rest with
    | none => none
    | some (rt, rest2) =>
      match rest2 with
      | [e] => some ⟨a, rt, e⟩
      | _ => none

/-- Modelled from the spec: an authenticated ciphertext — the payload is
masked with the key and carries an integrity tag binding it to the key, so
decryption under a different key is detected rather than yielding
garbage. -/
structure EncryptedBlob where
  keyTag : Nat
  payload : List Nat
deriving Repr, DecidableEq

/-- Modelled from the spec: authenticated encryption of a byte list under
a key. -/
def encryptBlob (key : Nat) (data : List Nat) : EncryptedBlob :=
  ⟨key, data.map (fun b => b ^^^ key)⟩

/-- Modelled from the spec: authenticated decryption; fails (integrity
check) when the blob was not produced under `key`. -/
def decryptBlob (key : Nat) (blob : EncryptedBlob) : Option (List Nat) :=
  if blob.keyTag = key then some (blob.payload.map (fun b => b ^^^ key))
  else none

/-- A failure surfaced by `load()` on a present but undecryptable or
unparseable file. -/
inductive StoreError where
  | badCiphertext
  | badParse
deriving Repr, DecidableEq

/-- Modelled from the spec: `save(record)` serializes, encrypts and
replaces the file content wholesale. -/
def saveTokens (key : Nat) (r : TokenRecord) (_prior : Option EncryptedBlob) :
    Option EncryptedBlob :=
  some (encryptBlob key (serializeRecord r))

/-- Modelled from the spec: `load()` returns `none` when no file exists,
a fatal error when decryption or parsing fails, and the record
otherwise. -/
def loadTokens (key : Nat) (file : Option EncryptedBlob) :
    Except StoreError (Option TokenRecord) :=
  match file with
  | none => .ok none
  | some blob =>
    match decryptBlob key blob with
    | none => .error .badCiphertext
    | some bs =>
      match deserializeRecord bs with
      | none => .error .badParse
      | some r => .ok (some r)

theorem decodeStringBytes_encodeStringBytes (s : String) (rest : List Nat) :
    decodeStringBytes (encodeStringBytes s ++ rest) = some (s, rest) := by
  simp only [encodeStringBytes, decodeStringBytes, List.cons_append]
  have hlen : s.length = (s.toList.map Char.toNat).length := by
    rw [List.length_map]; rfl
  rw [if_pos (by rw [hlen, List.length_append]; omega)]
  rw [hlen, List.take_left, List.drop_left]
  have : (s.toList.map Char.toNat).map Char.ofNat = s.toList := by
    rw [List.map_map]
    have : (Char.ofNat ∘ Char.toNat) = id := by
      funext c
      simp [Function.comp, Char.ofNat_toNat]
    rw [this, List.map_id]
  rw [this]
  cases s
  rfl

theorem decryptBlob_encryptBlob (key : Nat) (data : List Nat) :
    decryptBlob key (encryptBlob key data) = some data := by
  simp only [decryptBlob, encryptBlob]
  rw [if_pos trivial, List.map_map]
  have : ((fun b => b ^^^ key) ∘ fun b => b ^^^ key) = id := by
    funext b
    simp [Function.comp, Nat.xor_cancel_right]
  rw [this, List.map_id]

theorem deserializeRecord_serializeRecord (r : TokenRecord) :
    deserializeRecord (serializeRecord r) = some r := by
  simp only [serializeRecord, List.append_assoc, deserializeRecord,
    decodeStringBytes_encodeStringBytes]

/-- C2: round-trip of the Token Store — saving any well-formed record under
a key and loading with the same key yields the record back. -/
theorem save_load_roundtrip (key : Nat) (r : TokenRecord)
    (prior : Option EncryptedBlob) :
    loadTokens key (saveTokens key r prior) = .ok (some r) := by
  simp only [saveTokens, loadTokens, decryptBlob_encryptBlob,
    deserializeRecord_serializeRecord]

/-!
## SHA-256

`generatePKCE` (index.js line 50) computes
`crypto.createHash('sha256').update(verifier).digest('hex')`.  Node's
`createHash('sha256')` is FIPS 180-4 SHA-256 over the UTF-8 bytes of the
input, and `digest('hex')` is lowercase hexadecimal; both are embedded
here directly (words are `Nat` reduced mod 2^32). -/

/-- Truncate to a 32-bit word. -/
def w32 (n : Nat) : Nat := n % 4294967296

/-- 32-bit rotate right by `k` (0 < k < 32), on an input below 2^32. -/
def rotr32 (k n : Nat) : Nat := w32 ((n >>> k) ||| (n <<< (32 - k)))

/-- 32-bit bitwise complement. -/
def not32 (n : Nat) : Nat := n ^^^ 4294967295

def shaCh (x y z : Nat) : Nat := (x &&& y) ^^^ (not32 x &&& z)

def shaMaj (x y z : Nat) : Nat := (x &&& y) ^^^ (x &&& z) ^^^ (y &&& z)

def shaBigSigma0 (x : Nat) : Nat := rotr32 2 x ^^^ rotr32 13 x ^^^ rotr32 22 x

def shaBigSigma1 (x : Nat) : Nat := rotr32 6 x ^^^ rotr32 11 x ^^^ rotr32 25 x

def shaSmallSigma0 (x : Nat) : Nat := rotr32 7 x ^^^ rotr32 18 x ^^^ (x >>> 3)

def shaSmallSigma1 (x : Nat) : Nat := rotr32 17 x ^^^ rotr32 19 x ^^^ (x >>> 10)

/-- The 64 SHA-256 round constants (FIPS 180-4 §4.2.2), in decimal. -/
def shaK : List Nat :=
  [1116352408, 1899447441, 3049323471, 3921009573,
   961987163, 1508970993, 2453635748, 2870763221,
   3624381080, 310598401, 607225278, 1426881987,
   1925078388, 2162078206, 2614888103, 3248222580,
   3835390401, 4022224774, 264347078, 604807628,
   770255983, 1249150122, 1555081692, 1996064986,
   2554220882, 2821834349, 2952996808, 3210313671,
   3336571891, 3584528711, 113926993, 338241895,
   666307205, 773529912, 1294757372, 1396182291,
   1695183700, 1986661051, 2177026350, 2456956037,
   2730485921, 2820302411, 3259730800, 3345764771,
   3516065817, 3600352804, 4094571909, 275423344,
   430227734, 506948616, 659060556, 883997877,
   958139571, 1322822218, 1537002063, 1747873779,
   1955562222, 2024104815, 2227730452, 2361852424,
   2428436474, 2756734187, 3204031479, 3329325298]

/-- Eight-word SHA-256 chaining state. -/
structure Sha256State where
  h0 : Nat
  h1 : Nat
  h2 : Nat
  h3 : Nat
  h4 : Nat
  h5 : Nat
  h6 : Nat
  h7 : Nat
deriving Repr, DecidableEq

/-- SHA-256 initial hash value (FIPS 180-4 §5.3.3), in decimal. -/
def shaInit : Sha256State :=
  ⟨1779033703, 3144134277, 1013904242, 2773480762,
   1359893119, 2600822924, 528734635, 1541459225⟩

/-- Extend the 16-word block to the 64-word message schedule; `fuel` is the
number of words still to append (48 from a full block). -/
def extendSchedule : Nat → List Nat → List Nat
  | 0, ws => ws
  | fuel + 1, ws =>
    let t := ws.length
    let nw := w32 (shaSmallSigma1 (ws.getD (t - 2) 0) + ws.getD (t - 7) 0 +
      shaSmallSigma0 (ws.getD (t - 15) 0) + ws.getD (t - 16) 0)
    extendSchedule fuel (ws ++ [nw])

/-- One SHA-256 round on the working variables `(a,...,h)` stored in a
`Sha256State`. -/
def shaRound (kt wt : Nat) (s : Sha256State) : Sha256State :=
  let t1 := w32 (s.h7 + shaBigSigma1 s.h4 + shaCh s.h4 s.h5 s.h6 + kt + wt)
  let t2 := w32 (shaBigSigma0 s.h0 + shaMaj s.h0 s.h1 s.h2)
  ⟨w32 (t1 + t2), s.h0, s.h1, s.h2, w32 (s.h3 + t1), s.h4, s.h5, s.h6⟩

/-- Compress one 16-word block into the chaining state. -/
def shaCompress (st : Sha256State) (block : List Nat) : Sha256State :=
  let ws := extendSchedule 48 block
  let r := (shaK.zip ws).foldl (fun s kw => shaRound kw.1 kw.2 s) st
  ⟨w32 (st.h0 + r.h0), w32 (st.h1 + r.h1), w32 (st.h2 + r.h2),
   w32 (st.h3 + r.h3), w32 (st.h4 + r.h4), w32 (st.h5 + r.h5),
   w32 (st.h6 + r.h6), w32 (st.h7 + r.h7)⟩

/-- Group four big-endian bytes into one 32-bit word, repeatedly. -/
def bytesToWords : List Nat → List Nat
  | b0 :: b1 :: b2 :: b3 :: rest =>
    (b0 * 16777216 + b1 * 65536 + b2 * 256 + b3) :: bytesToWords rest
  | _ => []

/-- Split a byte list into 64-byte chunks (`fuel` bounds the recursion; the
caller passes the list length, which always suffices). -/
def chunks64Aux : Nat → List Nat → List (List Nat)
  | 0, _ => []
  | _, [] => []
  | fuel + 1, l => l.take 64 :: chunks64Aux fuel (l.drop 64)

def chunks64 (l : List Nat) : List (List Nat) := chunks64Aux l.length l

/-- The 8-byte big-endian encoding of the message bit length. -/
def lengthBytes (n : Nat) : List Nat :=
  [n >>> 56 % 256, n >>> 48 % 256, n >>> 40 % 256, n >>> 32 % 256,
   n >>> 24 % 256, n >>> 16 % 256, n >>> 8 % 256, n % 256]

/-- SHA-256 padding: append `0x80`, zeros to 56 mod 64, then the 64-bit
message bit length. -/
def padMessage (msg : List Nat) : List Nat :=
  msg ++ [128] ++ List.replicate ((119 - msg.length % 64) % 64) 0 ++
    lengthBytes (8 * msg.length)

/-- The SHA-256 chaining state after absorbing a whole byte message. -/
def sha256Words (msg : List Nat) : Sha256State :=
  (chunks64 (padMessage msg)).foldl (fun st blk => shaCompress st (bytesToWords blk))
    shaInit

/-- The 16 lowercase hexadecimal digit characters. -/
def hexChars : List Char := "0123456789abcdef".toList

def hexDigitChar (n : Nat) : Char := hexChars.getD (n % 16) '0'

/-- Eight lowercase hex characters of one 32-bit word, most significant
nibble first. -/
def wordToHex (n : Nat) : List Char :=
  [hexDigitChar (n >>> 28), hexDigitChar (n >>> 24), hexDigitChar (n >>> 20),
   hexDigitChar (n >>> 16), hexDigitChar (n >>> 12), hexDigitChar (n >>> 8),
   hexDigitChar (n >>> 4), hexDigitChar n]

/-- UTF-8 encoding of one character (what Node's `hash.update(string)`
uses by default). -/
def utf8EncodeChar (c : Char) : List Nat :=
  let n := c.toNat
  if n < 128 then [n]
  else if n < 2048 then [192 + n / 64, 128 + n % 64]
  else if n < 65536 then [224 + n / 4096, 128 + n / 64 % 64, 128 + n % 64]
  else [240 + n / 262144, 128 + n / 4096 % 64, 128 + n / 64 % 64, 128 + n % 64]

def utf8Encode (s : String) : List Nat := (s.toList.map utf8EncodeChar).flatten

/-- `crypto.createHash('sha256').update(s).digest('hex')`: the lowercase
hexadecimal SHA-256 digest of the UTF-8 bytes of `s`. -/
def sha256hex (s : String) : String :=
  let st := sha256Words (utf8Encode s)
  String.mk (wordToHex st.h0 ++ wordToHex st.h1 ++ wordToHex st.h2 ++
    wordToHex st.h3 ++ wordToHex st.h4 ++ wordToHex st.h5 ++
    wordToHex st.h6 ++ wordToHex st.h7)

/-!
## PKCE generation, `/auth/login` and `/auth/callback`

`Math.random()` returns a value in `[0, 1)`, so
`Math.floor(Math.random() * charactersLength)` is an index in
`[0, charactersLength)`; the stream of such draws is modelled by an
arbitrary `rng : Nat → Nat` reduced modulo the alphabet length. -/

/-- The verifier alphabet of `generateRandomString` (index.js line 36). -/
def pkceCharacters : String :=
  "ABCDEFGHIJKLMNOPQRSTUVWXYZabcdefghijklmnopqrstuvwxyz0123456789-._~"

/-- `generateRandomString(length)` (index.js lines 34-42): `length`
characters drawn from `pkceCharacters`, the `i`-th by the `i`-th random
draw. -/
def generateRandomString (length : Nat) (rng : Nat → Nat) : String :=
  String.mk ((List.range length).map fun i =>
    pkceCharacters.toList.getD (rng i % pkceCharacters.length) 'A')

/-- `generatePKCE()` (index.js lines 45-53): a 64-character random
verifier and its SHA-256 hex digest as challenge. -/
def generatePKCE (rng : Nat → Nat) : String × String :=
  let verifier := generateRandomString 64 rng
  let challenge := sha256hex verifier
  (verifier, challenge)

/-- The single piece of in-memory server state: the pending PKCE code
verifier (index.js line 31). -/
structure ServerState where
  codeVerifier : Option String
deriving Repr, DecidableEq

/-- The query parameters of the authorization redirect built by
`/auth/login` (index.js lines 92-100). -/
structure AuthLoginRedirect where
  client_key : String
  redirect_uri : String
  response_type : String
  scope : String
  state : String
  code_challenge : String
  code_challenge_method : String
deriving Repr, DecidableEq

/-- `/auth/login` (index.js lines 87-104): generate a PKCE pair, overwrite
the stored verifier, and redirect with the challenge and method `S256`. -/
def authLogin (clientKey redirectUri : String) (rng : Nat → Nat)
    (_st : ServerState) : ServerState × AuthLoginRedirect :=
  let pkce := generatePKCE rng
  (⟨some pkce.1⟩,
   ⟨clientKey, redirectUri, "code",
    "user.info.basic,user.info.profile,user.info.stats,video.publish,video.upload",
    "secureRandomState123", pkce.2, "S256"⟩)

/-- Outcome of the authorization-code exchange POST in `/auth/callback`
(index.js lines 126-137): transport failure, or a response body with an
optional `error` field and optional `access_token`. -/
inductive ExchangeOutcome where
  | httpFailure (msg : String)
  | body (error : Option (String × String)) (access_token : Option String)
      (refresh_token : String) (expires_in : Nat)
deriving Repr, DecidableEq

/-- What `/auth/callback` leaves behind: the new server state, the HTTP
status sent, and the record written through the token store (if any). -/
structure CallbackResult where
  state : ServerState
  status : Nat
  saved : Option TokenRecord
deriving Repr, DecidableEq

/-- `/auth/callback` (index.js lines 107-175): 400 without a `code` or a
pending verifier; 400 on an error body or a missing access token; on
success persist the tokens and clear the verifier; 500 on transport
failure (verifier retained). -/
def authCallback (st : ServerState) (code : Option String) (now : Nat)
    (exchange : ExchangeOutcome) : CallbackResult :=
  match code with
  | none => ⟨st, 400, none⟩
  | some _ =>
    match st.codeVerifier with
    | none => ⟨st, 400, none⟩
    | some _ =>
      match exchange with
      | .httpFailure _ => ⟨st, 500, none⟩
      | .body (some _) _ _ _ => ⟨st, 400, none⟩
      | .body none none _ _ => ⟨st, 400, none⟩
      | .body none (some a) rt e => ⟨⟨none⟩, 200, some ⟨a, rt, now + e * 1000⟩⟩

/-- C3: every `/auth/login` sets the verifier slot to the fresh verifier;
a callback that consumes it (successful exchange) leaves the slot empty; a
second login overwrites the pending verifier with its own; the slot is
single-valued, so at most one verifier is pending. -/
theorem pkce_verifier_lifecycle (ck ru c : String) (rng rng1 rng2 : Nat → Nat)
    (st : ServerState) (now e : Nat) (a rt : String) :
    (authLogin ck ru rng st).1.codeVerifier = some (generatePKCE rng).1
    ∧ (authCallback st (some c) now (.body none (some a) rt e)).state.codeVerifier
        = none
    ∧ (authLogin ck ru rng2 (authLogin ck ru rng1 st).1).1.codeVerifier
        = some (generatePKCE rng2).1
    ∧ ∀ st' : ServerState, st'.codeVerifier.toList.length ≤ 1 := by
  refine ⟨rfl, ?_, rfl, ?_⟩
  · cases hcv : st.codeVerifier <;> simp [authCallback, hcv]
  · intro st'
    cases h : st'.codeVerifier <;> simp [h]

/-- C7: the PKCE challenge is a deterministic function of the verifier —
two `generatePKCE` invocations that produce the same verifier produce the
same challenge. -/
theorem generatePKCE_challenge_deterministic (rng1 rng2 : Nat → Nat)
    (h : (generatePKCE rng1).1 = (generatePKCE rng2).1) :
    (generatePKCE rng1).2 = (generatePKCE rng2).2 := by
  show sha256hex (generateRandomString 64 rng1) = sha256hex (generateRandomString 64 rng2)
  exact congrArg sha256hex h

/-- Witness for C7 at the constant-zero random streams. -/
theorem generatePKCE_challenge_deterministic_witness :
    (generatePKCE (fun _ => 0)).2 = (generatePKCE (fun _ => 0)).2 :=
  generatePKCE_challenge_deterministic (fun _ => 0) (fun _ => 0) rfl

theorem contains_getD (l : List Char) (n : Nat) (d : Char) (h : n < l.length) :
    l.contains (l.getD n d) = true := by
  rw [List.getD_eq_getElem l d h]
  exact List.elem_eq_true_of_mem (List.getElem_mem h)

theorem hexChars_contains_hexDigitChar (n : Nat) :
    hexChars.contains (hexDigitChar n) = true := by
  show hexChars.contains (hexChars.getD (n % 16) '0') = true
  exact contains_getD _ _ _ (Nat.mod_lt _ (by decide))

theorem hexDigitChar_mem_hexChars (n : Nat) : hexDigitChar n ∈ hexChars := by
  have h : n % 16 < hexChars.length := Nat.mod_lt _ (by decide)
  show hexChars.getD (n % 16) '0' ∈ hexChars
  rw [List.getD_eq_getElem hexChars '0' h]
  exact List.getElem_mem h

theorem sha256hex_length (s : String) : (sha256hex s).length = 64 := by
  show (wordToHex _ ++ wordToHex _ ++ wordToHex _ ++ wordToHex _ ++ wordToHex _ ++
    wordToHex _ ++ wordToHex _ ++ wordToHex _ : List Char).length = 64
  simp [wordToHex, List.length_append]

theorem sha256hex_hex_chars (s : String) :
    (sha256hex s).toList.all (fun c => hexChars.contains c) = true := by
  show (wordToHex _ ++ wordToHex _ ++ wordToHex _ ++ wordToHex _ ++ wordToHex _ ++
    wordToHex _ ++ wordToHex _ ++ wordToHex _ : List Char).all _ = true
  simp [wordToHex, List.all_append, hexChars_contains_hexDigitChar,
    hexDigitChar_mem_hexChars]

theorem generateRandomString_length (len : Nat) (rng : Nat → Nat) :
    (generateRandomString len rng).length = len := by
  show ((List.range len).map _).length = len
  rw [List.length_map, List.length_range]

theorem generateRandomString_chars (len : Nat) (rng : Nat → Nat) :
    (generateRandomString len rng).toList.all
      (fun c => pkceCharacters.toList.contains c) = true := by
  rw [List.all_eq_true]
  intro c hc
  rw [show (generateRandomString len rng).toList = (List.range len).map
      (fun i => pkceCharacters.toList.getD (rng i % pkceCharacters.length) 'A')
    from rfl, List.mem_map] at hc
  obtain ⟨i, _, rfl⟩ := hc
  exact contains_getD _ _ _ (Nat.mod_lt _ (by decide))

/-- C10: every generated verifier has exactly 64 characters (within PKCE's
43-128 range), all drawn from the 66-character alphabet
`A-Z a-z 0-9 - . _ ~`; the challenge is the SHA-256 hex digest of the
verifier — 64 lowercase hexadecimal characters — and `/auth/login` sends it
as `code_challenge` with `code_challenge_method` `S256`. -/
theorem generatePKCE_verifier_challenge_shape (rng : Nat → Nat)
    (ck ru : String) (st : ServerState) :
    (generatePKCE rng).1.length = 64
    ∧ 43 ≤ (generatePKCE rng).1.length
    ∧ (generatePKCE rng).1.length ≤ 128
    ∧ (generatePKCE rng).1.toList.all
        (fun c => pkceCharacters.toList.contains c) = true
    ∧ pkceCharacters.length = 66
    ∧ (generatePKCE rng).2 = sha256hex (generatePKCE rng).1
    ∧ (generatePKCE rng).2.length = 64
    ∧ (generatePKCE rng).2.toList.all (fun c => hexChars.contains c) = true
    ∧ (authLogin ck ru rng st).2.code_challenge = (generatePKCE rng).2
    ∧ (authLogin ck ru rng st).2.code_challenge_method = "S256" := by
  have hlen : (generatePKCE rng).1.length = 64 := generateRandomString_length 64 rng
  refine ⟨hlen, by omega, by omega, generateRandomString_chars 64 rng, by decide,
    rfl, sha256hex_length _, sha256hex_hex_chars _, rfl, rfl⟩

/-!
## API proxy handlers

The responses a handler can send are modelled structurally, mirroring the
`res.status(...).json({...})` / `res.send(...)` shapes in the source; an
upstream platform call is an opaque outcome parameter. -/

/-- A response body, by shape: plain text sent with `res.send`, a relayed
upstream JSON payload, `{error, example?}`, `{error, details}`, or the
upload success envelope. -/
inductive ResponseBody where
  | text (s : String)
  | jsonData (s : String)
  | errorMsg (error : String) (exampleText : Option String)
  | errorWithDetails (error : String) (details : String)
  | uploadSuccess (publish_id : String)
deriving Repr, DecidableEq

/-- The upstream error details a response body relays, if any. -/
def ResponseBody.relayedDetails : ResponseBody → Option String
  | .errorWithDetails _ d => some d
  | _ => none

structure HttpResponse where
  status : Nat
  body : ResponseBody
deriving Repr, DecidableEq

/-- The `err.message` of a thrown authentication error, as interpolated
into `{details: ...}` by the catch blocks. -/
def AuthError.message : AuthError → String
  | .noTokens m => m
  | .refreshFailed m => m

/-- Outcome of one outbound platform call made by a proxy handler: a
successful JSON payload or a failure (HTTP error / error body), with its
details. -/
inductive UpstreamResult where
  | ok (payload : String)
  | fail (details : String)
deriving Repr, DecidableEq

/-- `/user/info` (index.js lines 252-278): the access token is obtained
BEFORE the `fields` check; a token failure therefore lands in the catch
block (500 with details) even when `fields` is missing. -/
def userInfoHandler (port : String) (stored : Option TokenRecord) (now : Nat)
    (refresh : RefreshOutcome) (fields : Option String)
    (upstream : UpstreamResult) : HttpResponse :=
  match (getValidAccessToken port stored now refresh).result with
  | .error e => ⟨500, .errorWithDetails "User info request failed" e.message⟩
  | .ok _ =>
    match fields with
    | none => ⟨400, .errorMsg "fields query parameter is required"
        (some "GET /user/info?fields=open_id,union_id,avatar_url")⟩
    | some _ =>
      match upstream with
      | .fail d => ⟨500, .errorWithDetails "User info request failed" d⟩
      | .ok payload => ⟨200, .jsonData payload⟩

/-- `/creator-info` (index.js lines 233-249): any failure — token or
upstream — is answered with `res.status(500).send('API call failed')`,
carrying no upstream details. -/
def creatorInfoHandler (port : String) (stored : Option TokenRecord)
    (now : Nat) (refresh : RefreshOutcome) (upstream : UpstreamResult) :
    HttpResponse :=
  match (getValidAccessToken port stored now refresh).result with
  | .error _ => ⟨500, .text "API call failed"⟩
  | .ok _ =>
    match upstream with
    | .fail _ => ⟨500, .text "API call failed"⟩
    | .ok payload => ⟨200, .jsonData payload⟩

/-- `/video/status` (index.js lines 377-404): token first, then the
`publish_id` check, then the forwarded status query; failures answer 500
with `{error: 'Status check failed', details}`. -/
def videoStatusHandler (port : String) (stored : Option TokenRecord)
    (now : Nat) (refresh : RefreshOutcome) (publish_id : Option String)
    (upstream : UpstreamResult) : HttpResponse :=
  match (getValidAccessToken port stored now refresh).result with
  | .error e => ⟨500, .errorWithDetails "Status check failed" e.message⟩
  | .ok _ =>
    match publish_id with
    | none => ⟨400, .errorMsg "publish_id query parameter is required" none⟩
    | some _ =>
      match upstream with
      | .fail d => ⟨500, .errorWithDetails "Status check failed" d⟩
      | .ok payload => ⟨200, .jsonData payload⟩

/-- C4 counterexample: a `/user/info` request with no `fields` parameter
and no stored tokens is answered 500 (token failure hits first), not 400 —
the "regardless of whether tokens are stored" part of the claim fails. -/
theorem userInfo_missing_fields_counterexample :
    (userInfoHandler "7777" none 0 (.httpFailure "") none (.ok "{}")).status = 500
    ∧ ¬ (userInfoHandler "7777" none 0 (.httpFailure "") none
        (.ok "{}")).status = 400 := by
  exact ⟨rfl, by decide⟩

/-- C4 (amended): with a missing `fields` parameter, the response is 400
with the descriptive error exactly when a valid access token was obtained;
when token acquisition fails the response is 500 instead. -/
theorem userInfo_missing_fields (port : String) (stored : Option TokenRecord)
    (now : Nat) (refresh : RefreshOutcome) (upstream : UpstreamResult) :
    (∀ tok, (getValidAccessToken port stored now refresh).result = .ok tok →
      userInfoHandler port stored now refresh none upstream =
        ⟨400, .errorMsg "fields query parameter is required"
          (some "GET /user/info?fields=open_id,union_id,avatar_url")⟩)
    ∧ (∀ e, (getValidAccessToken port stored now refresh).result = .error e →
      (userInfoHandler port stored now refresh none upstream).status = 500) := by
  constructor
  · intro tok h
    simp [userInfoHandler, h]
  · intro e h
    simp [userInfoHandler, h]

/-- Witness for the amended C4 at a fresh stored token. -/
theorem userInfo_missing_fields_witness :
    userInfoHandler "7777" (some ⟨"A", "R", 1000000000⟩) 0 (.httpFailure "")
      none (.ok "{}") =
      ⟨400, .errorMsg "fields query parameter is required"
        (some "GET /user/info?fields=open_id,union_id,avatar_url")⟩ :=
  (userInfo_missing_fields "7777" (some ⟨"A", "R", 1000000000⟩) 0
    (.httpFailure "") (.ok "{}")).1 "A" rfl

/-- C5 counterexample: on an upstream failure with details `"boom"`, the
`/creator-info` handler answers 500 with the fixed text `API call failed`,
relaying no upstream details. -/
theorem creatorInfo_no_relay_counterexample :
    (creatorInfoHandler "7777" (some ⟨"A", "R", 1000000000⟩) 0
      (.httpFailure "") (.fail "boom")).status = 500
    ∧ (creatorInfoHandler "7777" (some ⟨"A", "R", 1000000000⟩) 0
      (.httpFailure "") (.fail "boom")).body = .text "API call failed"
    ∧ ((creatorInfoHandler "7777" (some ⟨"A", "R", 1000000000⟩) 0
      (.httpFailure "") (.fail "boom")).body).relayedDetails = none := by
  exact ⟨rfl, rfl, rfl⟩

/-!
## `/video/upload` (file-based variant, index.js lines 407-509)

The multer middleware has already written the uploaded file to a temporary
path when the handler body runs; `tempFileExists` tracks whether that file
still exists when the handler finishes.  `initPayload` records the
`source_info` object sent to the inbox-init endpoint (if the call was
made) and `putRequests` the `Content-Range`s of the PUT transfers
performed. -/

/-- The `source_info` reported to the init endpoint (index.js
lines 435-440). -/
structure SourceInfo where
  video_size : Nat
  chunk_size : Nat
  total_chunk_count : Nat
deriving Repr, DecidableEq

/-- A `Content-Range: bytes first-last/total` header value (index.js
line 465). -/
structure ContentRange where
  first : Nat
  last : Nat
  total : Nat
deriving Repr, DecidableEq

/-- The JSON body of the init response: optional `error: {code, message}`
and optional `data: {publish_id, upload_url}` (index.js lines 448-454). -/
structure InitResponseBody where
  error : Option (String × String)
  data : Option (String × String)
deriving Repr, DecidableEq

/-- Everything observable about one run of the upload handler. -/
structure UploadOutcome where
  status : Nat
  body : ResponseBody
  tempFileExists : Bool
  initPayload : Option SourceInfo
  putRequests : List ContentRange
deriving Repr, DecidableEq

/-- `chunkSize` (index.js line 426): the file size below 10 MiB, else
10 MiB. -/
def chunkSizeOf (videoSize : Nat) : Nat :=
  if videoSize < 10 * 1024 * 1024 then videoSize else 10 * 1024 * 1024

/-- `totalChunkCount = Math.ceil(videoSize / chunkSize)` (index.js
line 427); for a positive size the ceiling of the exact division. -/
def totalChunkCountOf (videoSize : Nat) : Nat :=
  (videoSize + chunkSizeOf videoSize - 1) / chunkSizeOf videoSize

/-- The part of the handler after a successful init call whose body passed
the error check (index.js lines 454-493): destructure `data` (a missing
`data` object throws, landing in the catch block), then PUT the whole file
with `Content-Range: bytes 0-(size-1)/size`; afterwards the temp file is
removed — by line 477 on success, by the catch block (lines 499-502) on
failure. -/
def uploadAfterInit (videoSize : Nat) (si : SourceInfo)
    (data : Option (String × String)) (put : Except String Nat) :
    UploadOutcome :=
  match data with
  | none =>
    ⟨500, .errorWithDetails "Video upload failed"
      "Cannot destructure init response data", false, some si, []⟩
  | some (publish_id, _upload_url) =>
    match put with
    | .error m =>
      ⟨500, .errorWithDetails "Video upload failed" m, false, some si,
        [⟨0, videoSize - 1, videoSize⟩]⟩
    | .ok _ =>
      ⟨200, .uploadSuccess publish_id, false, some si,
        [⟨0, videoSize - 1, videoSize⟩]⟩

/-- The `/video/upload` handler (file-based variant, index.js
lines 407-509).  `file` is multer's `req.file` (path and size), `init` and
`put` the outcomes of the two outbound calls.  An init error body with
`code !== 'ok'` triggers `fs.unlinkSync` before the throw (line 450); every
other failure reaches the catch block, which unlinks the temp file if it
still exists (lines 499-502). -/
def videoUploadFile (port : String) (file : Option (String × Nat))
    (stored : Option TokenRecord) (now : Nat) (refresh : RefreshOutcome)
    (init : Except String InitResponseBody) (put : Except String Nat) :
    UploadOutcome :=
  match file with
  | none => ⟨400, .errorMsg "No video file uploaded" none, false, none, []⟩
  | some (_, videoSize) =>
    match (getValidAccessToken port stored now refresh).result with
    | .error e =>
      ⟨500, .errorWithDetails "Video upload failed" e.message, false, none, []⟩
    | .ok _ =>
      let si : SourceInfo :=
        ⟨videoSize, chunkSizeOf videoSize, totalChunkCountOf videoSize⟩
      match init with
      | .error m =>
        ⟨500, .errorWithDetails "Video upload failed" m, false, some si, []⟩
      | .ok body =>
        match body.error with
        | some (code, msg) =>
          if code = "ok" then uploadAfterInit videoSize si body.data put
          else
            ⟨500, .errorWithDetails "Video upload failed"
              ("TikTok API Error: " ++ msg), false, some si, []⟩
        | none => uploadAfterInit videoSize si body.data put

theorem uploadAfterInit_tempFile (videoSize : Nat) (si : SourceInfo)
    (data : Option (String × String)) (put : Except String Nat) :
    (uploadAfterInit videoSize si data put).tempFileExists = false := by
  rcases data with _ | ⟨pid, url⟩
  · rfl
  · rcases put with m | st <;> rfl

/-- C8: whenever the handler received an uploaded file, the temporary
input file no longer exists once the handler finishes, on the success path
and on every failure path alike. -/
theorem videoUpload_temp_file_removed (port p : String) (s : Nat)
    (stored : Option TokenRecord) (now : Nat) (refresh : RefreshOutcome)
    (init : Except String InitResponseBody) (put : Except String Nat) :
    (videoUploadFile port (some (p, s)) stored now refresh init
      put).tempFileExists = false := by
  rcases hres : (getValidAccessToken port stored now refresh).result with e | tok
  · simp only [videoUploadFile, hres]
  · rcases init with m | ⟨err, data⟩
    · simp only [videoUploadFile, hres]
    · simp only [videoUploadFile, hres]
      rcases err with _ | ⟨code, msg⟩
      · exact uploadAfterInit_tempFile _ _ _ _
      · dsimp only
        by_cases hc : code = "ok"
        · rw [if_pos hc]
          exact uploadAfterInit_tempFile _ _ _ _
        · rw [if_neg hc]

theorem chunkSizeOf_eq_min (s : Nat) :
    chunkSizeOf s = min s (10 * 1024 * 1024) := by
  unfold chunkSizeOf
  split <;> omega

theorem totalChunkCountOf_gt_one (s : Nat) (h : 10 * 1024 * 1024 < s) :
    1 < totalChunkCountOf s := by
  unfold totalChunkCountOf chunkSizeOf
  rw [if_neg (by omega)]
  have h2 : 2 ≤ (s + 10 * 1024 * 1024 - 1) / (10 * 1024 * 1024) := by
    rw [Nat.le_div_iff_mul_le (by norm_num)]
    omega
  omega

/-- C9: for a received file of positive size `s` whose init call succeeds,
the handler reports `chunk_size = min s 10MiB` and
`total_chunk_count = ⌈s / chunk_size⌉` to the init endpoint — more than one
chunk whenever `s` exceeds 10 MiB — yet performs exactly one whole-file PUT
with `Content-Range: bytes 0-(s-1)/s`. -/
theorem videoUpload_chunking (port p pid url tok : String) (s : Nat)
    (stored : Option TokenRecord) (now : Nat) (refresh : RefreshOutcome)
    (put : Except String Nat) (_hs : 0 < s)
    (htok : (getValidAccessToken port stored now refresh).result = .ok tok) :
    (videoUploadFile port (some (p, s)) stored now refresh
        (.ok ⟨none, some (pid, url)⟩) put).initPayload =
      some ⟨s, min s (10 * 1024 * 1024),
        (s + min s (10 * 1024 * 1024) - 1) / min s (10 * 1024 * 1024)⟩
    ∧ (10 * 1024 * 1024 < s →
        1 < (videoUploadFile port (some (p, s)) stored now refresh
          (.ok ⟨none, some (pid, url)⟩) put).initPayload.elim 0
            SourceInfo.total_chunk_count)
    ∧ (videoUploadFile port (some (p, s)) stored now refresh
        (.ok ⟨none, some (pid, url)⟩) put).putRequests = [⟨0, s - 1, s⟩] := by
  have hpayload : (videoUploadFile port (some (p, s)) stored now refresh
      (.ok ⟨none, some (pid, url)⟩) put).initPayload =
      some ⟨s, chunkSizeOf s, totalChunkCountOf s⟩ := by
    simp only [videoUploadFile, htok, uploadAfterInit]
    rcases put with m | st <;> rfl
  refine ⟨?_, ?_, ?_⟩
  · rw [hpayload, chunkSizeOf_eq_min, totalChunkCountOf,
      chunkSizeOf_eq_min]
  · intro hbig
    rw [hpayload]
    exact totalChunkCountOf_gt_one s hbig
  · simp only [videoUploadFile, htok, uploadAfterInit]
    rcases put with m | st <;> rfl

/-- Witness for C9 at a file one byte over 10 MiB with a fresh stored
token. -/
theorem videoUpload_chunking_witness :
    (videoUploadFile "7777" (some ("/tmp/uploads/v", 10485761))
        (some ⟨"A", "R", 1000000000⟩) 0 (.httpFailure "")
        (.ok ⟨none, some ("P", "U")⟩) (.ok 200)).initPayload =
      some ⟨10485761, min 10485761 (10 * 1024 * 1024),
        (10485761 + min 10485761 (10 * 1024 * 1024) - 1) /
          min 10485761 (10 * 1024 * 1024)⟩
    ∧ (10 * 1024 * 1024 < 10485761 →
        1 < (videoUploadFile "7777" (some ("/tmp/uploads/v", 10485761))
          (some ⟨"A", "R", 1000000000⟩) 0 (.httpFailure "")
          (.ok ⟨none, some ("P", "U")⟩) (.ok 200)).initPayload.elim 0
            SourceInfo.total_chunk_count)
    ∧ (videoUploadFile "7777" (some ("/tmp/uploads/v", 10485761))
        (some ⟨"A", "R", 1000000000⟩) 0 (.httpFailure "")
        (.ok ⟨none, some ("P", "U")⟩) (.ok 200)).putRequests =
      [⟨0, 10485761 - 1, 10485761⟩] :=
  videoUpload_chunking "7777" "/tmp/uploads/v" "P" "U" "A" 10485761
    (some ⟨"A", "R", 1000000000⟩) 0 (.httpFailure "") (.ok 200)
    (by decide) rfl

/-!
## The remaining proxy handlers: `/video/direct-post` and the
pull-from-URL `/video/upload`

These two handlers have no temp file to track, so only their HTTP
response is modelled. -/

/-- The post-init part shared by `/video/direct-post` (index.js
lines 333-365) and the pull-from-URL `/video/upload` of the second
variant (lines 328-353): destructuring a missing `data` object throws
(landing in the catch block), a PUT failure reaches the catch, and
success returns the publish id; both catch blocks answer 500 with
`{error: 'Video upload failed', details}`. -/
def postAfterInit (data : Option (String × String)) (put : Except String Nat) :
    HttpResponse :=
  match data with
  | none =>
    ⟨500, .errorWithDetails "Video upload failed"
      "Cannot destructure init response data"⟩
  | some (publish_id, _upload_url) =>
    match put with
    | .error m => ⟨500, .errorWithDetails "Video upload failed" m⟩
    | .ok _ => ⟨200, .uploadSuccess publish_id⟩

/-- `/video/direct-post` (index.js lines 281-374): token first, then the
`file_path`, `title` and file-existence checks (400 each), then the init
call and the whole-file PUT.  An init error body with `code !== 'ok'`
throws `TikTok API Error: …`; every thrown failure reaches the catch
block, which answers 500 with `{error: 'Video upload failed', details}`.
Only the response is modelled here; the chunk computation (lines 302-303)
does not affect it and is embedded as `chunkSizeOf`/`totalChunkCountOf`
for the file-upload variant. -/
def videoDirectPost (port : String) (stored : Option TokenRecord) (now : Nat)
    (refresh : RefreshOutcome) (file_path title : Option String)
    (fileExists : Bool) (_fileSize : Nat)
    (init : Except String InitResponseBody) (put : Except String Nat) :
    HttpResponse :=
  match (getValidAccessToken port stored now refresh).result with
  | .error e => ⟨500, .errorWithDetails "Video upload failed" e.message⟩
  | .ok _ =>
    match file_path with
    | none => ⟨400, .errorMsg "file_path is required" none⟩
    | some _ =>
      match title with
      | none => ⟨400, .errorMsg "title is required" none⟩
      | some _ =>
        if !fileExists then
          ⟨400, .errorMsg "File not found at specified path" none⟩
        else
          match init with
          | .error m => ⟨500, .errorWithDetails "Video upload failed" m⟩
          | .ok body =>
            match body.error with
            | some (code, msg) =>
              if code = "ok" then postAfterInit body.data put
              else
                ⟨500, .errorWithDetails "Video upload failed"
                  ("TikTok API Error: " ++ msg)⟩
            | none => postAfterInit body.data put

/-- The pull-from-URL `/video/upload` of the second index.js variant
(embedded in the Dockerfile, lines 283-363): token, `video_url` check
(400), the video download (failure reaches the catch), the inbox init
call, and the whole-file PUT; every failure answers 500 with
`{error: 'Video upload failed', details}`. -/
def videoUploadUrl (port : String) (stored : Option TokenRecord) (now : Nat)
    (refresh : RefreshOutcome) (video_url : Option String)
    (download : Except String Nat) (init : Except String InitResponseBody)
    (put : Except String Nat) : HttpResponse :=
  match (getValidAccessToken port stored now refresh).result with
  | .error e => ⟨500, .errorWithDetails "Video upload failed" e.message⟩
  | .ok _ =>
    match video_url with
    | none => ⟨400, .errorMsg "video_url is required" none⟩
    | some _ =>
      match download with
      | .error m => ⟨500, .errorWithDetails "Video upload failed" m⟩
      | .ok _videoSize =>
        match init with
        | .error m => ⟨500, .errorWithDetails "Video upload failed" m⟩
        | .ok body =>
          match body.error with
          | some (code, msg) =>
            if code = "ok" then postAfterInit body.data put
            else
              ⟨500, .errorWithDetails "Video upload failed"
                ("TikTok API Error: " ++ msg)⟩
          | none => postAfterInit body.data put

/-- C5 (amended): when the upstream platform call fails the server answers
500; every proxy handler except `/creator-info` relays the upstream error
details in its response body — `/user/info`, `/video/status`, the
file-based `/video/upload` (init and PUT failures), `/video/direct-post`
(init and PUT failures) and the pull-from-URL `/video/upload` (download,
init and PUT failures) — while `/creator-info` sends the fixed text
`API call failed` with no details. -/
theorem upstream_failure_responses (port : String) (stored : Option TokenRecord)
    (now : Nat) (refresh : RefreshOutcome) (tok f pid vurl fp ttl p d : String)
    (s : Nat) (init : Except String InitResponseBody) (put : Except String Nat)
    (h : (getValidAccessToken port stored now refresh).result = .ok tok) :
    userInfoHandler port stored now refresh (some f) (.fail d) =
      ⟨500, .errorWithDetails "User info request failed" d⟩
    ∧ videoStatusHandler port stored now refresh (some pid) (.fail d) =
      ⟨500, .errorWithDetails "Status check failed" d⟩
    ∧ (videoUploadFile port (some (p, s)) stored now refresh
        (.error d) put).status = 500
    ∧ (videoUploadFile port (some (p, s)) stored now refresh
        (.error d) put).body = .errorWithDetails "Video upload failed" d
    ∧ (videoUploadFile port (some (p, s)) stored now refresh
        (.ok ⟨none, some (pid, vurl)⟩) (.error d)).status = 500
    ∧ (videoUploadFile port (some (p, s)) stored now refresh
        (.ok ⟨none, some (pid, vurl)⟩) (.error d)).body =
      .errorWithDetails "Video upload failed" d
    ∧ videoDirectPost port stored now refresh (some fp) (some ttl) true s
        (.error d) put = ⟨500, .errorWithDetails "Video upload failed" d⟩
    ∧ videoDirectPost port stored now refresh (some fp) (some ttl) true s
        (.ok ⟨none, some (pid, vurl)⟩) (.error d) =
      ⟨500, .errorWithDetails "Video upload failed" d⟩
    ∧ videoUploadUrl port stored now refresh (some vurl) (.error d) init put =
      ⟨500, .errorWithDetails "Video upload failed" d⟩
    ∧ videoUploadUrl port stored now refresh (some vurl) (.ok s) (.error d)
        put = ⟨500, .errorWithDetails "Video upload failed" d⟩
    ∧ videoUploadUrl port stored now refresh (some vurl) (.ok s)
        (.ok ⟨none, some (pid, vurl)⟩) (.error d) =
      ⟨500, .errorWithDetails "Video upload failed" d⟩
    ∧ creatorInfoHandler port stored now refresh (.fail d) =
      ⟨500, .text "API call failed"⟩ := by
  refine ⟨?_, ?_, ?_, ?_, ?_, ?_, ?_, ?_, ?_, ?_, ?_, ?_⟩ <;>
    simp [userInfoHandler, videoStatusHandler, creatorInfoHandler,
      videoUploadFile, videoDirectPost, videoUploadUrl, uploadAfterInit,
      postAfterInit, h]

/-- Witness for the amended C5 at a fresh stored token. -/
theorem upstream_failure_responses_witness :
    userInfoHandler "7777" (some ⟨"A", "R", 1000000000⟩) 0 (.httpFailure "")
      (some "open_id") (.fail "boom") =
      ⟨500, .errorWithDetails "User info request failed" "boom"⟩ :=
  (upstream_failure_responses "7777" (some ⟨"A", "R", 1000000000⟩) 0
    (.httpFailure "") "A" "open_id" "P" "U" "/tmp/v.mp4" "t" "/tmp/uploads/v"
    "boom" 1000 (.error "x") (.ok 200) rfl).1

end TikTokOAuth
